import Mathlib

/-!
Shallow embedding of the AadiFinance lead-ingestion service (src/main.py):
the pydantic `Lead` schema with its field validators, the `/vendor/submit-lead`
route handler (API-key auth, partner match, row append), and the row layout
appended to the spreadsheet-backed store.

Strings are modelled as Lean `String` over their `data : List Char`; the
appended row is a list of `Cell` values (Python `str`, `int` or `None`).
Side effects on the store are modelled as the list of rows the handler
appends (empty on every failure path).
-/

set_option autoImplicit false

deriving instance DecidableEq for Except

namespace LeadIngest

/-! ### Character / string primitives (Python semantics, ASCII fragment) -/

/-- A decimal digit, `'0'` to `'9'` (the ASCII fragment of Python `str.isdigit`). -/
def isAsciiDigit (c : Char) : Bool := '0' ≤ c && c ≤ '9'

/-- An uppercase ASCII letter `'A'`-`'Z'`. -/
def isUpperAZ (c : Char) : Bool := 'A' ≤ c && c ≤ 'Z'

def allDigits (l : List Char) : Bool := l.all isAsciiDigit

/-- Python `str.isdigit`: nonempty and every character a digit. -/
def pyIsdigit (s : String) : Bool := !s.data.isEmpty && allDigits s.data

/-- Python `str.upper`, ASCII fragment. -/
def pyUpper (s : String) : String := ⟨s.data.map Char.toUpper⟩

/-- Python `str.lower`, ASCII fragment (HTTP header names are compared lowercased). -/
def pyLower (s : String) : String := ⟨s.data.map Char.toLower⟩

/-- Numeric value of a digit string. -/
def digitsToNat (l : List Char) : Nat := l.foldl (fun a c => a * 10 + (c.toNat - 48)) 0

/-- Split a character list on a separator, like Python `str.split(sep)`. -/
def splitOnChar (sep : Char) : List Char → List (List Char)
  | [] => [[]]
  | c :: rest =>
    let r := splitOnChar sep rest
    if c = sep then [] :: r
    else
      match r with
      | [] => [[c]]
      | g :: gs => (c :: g) :: gs

/-! ### Calendar / datetime parsing (models of CPython stdlib functions) -/

def isLeapYear (y : Nat) : Bool := (y % 4 == 0 && y % 100 != 0) || y % 400 == 0

def daysInMonth (y m : Nat) : Nat :=
  if m = 2 then (if isLeapYear y then 29 else 28)
  else if m = 4 || m = 6 || m = 9 || m = 11 then 30
  else 31

/-- A valid proleptic-Gregorian calendar date within the year range of `datetime`. -/
def validYmd (y m d : Nat) : Bool :=
  1 ≤ y && y ≤ 9999 && 1 ≤ m && m ≤ 12 && 1 ≤ d && d ≤ daysInMonth y m

/-- Model of `datetime.strptime(v, "%Y-%m-%d")` succeeding: four-digit year,
one- or two-digit month and day, forming a valid calendar date. -/
def strptimeYmdOk (s : String) : Bool :=
  match splitOnChar '-' s.data with
  | [ys, ms, ds] =>
    ys.length == 4 && allDigits ys &&
    (ms.length == 1 || ms.length == 2) && allDigits ms &&
    (ds.length == 1 || ds.length == 2) && allDigits ds &&
    validYmd (digitsToNat ys) (digitsToNat ms) (digitsToNat ds)
  | _ => false

/-- A zero-padded `YYYY-MM-DD` date, the date part accepted by
`datetime.fromisoformat`. -/
def isoDateOk (l : List Char) : Bool :=
  match l with
  | [y1, y2, y3, y4, s1, m1, m2, s2, d1, d2] =>
    s1 == '-' && s2 == '-' &&
    allDigits [y1, y2, y3, y4] && allDigits [m1, m2] && allDigits [d1, d2] &&
    validYmd (digitsToNat [y1, y2, y3, y4]) (digitsToNat [m1, m2]) (digitsToNat [d1, d2])
  | _ => false

/-- The time-of-day part accepted by `datetime.fromisoformat`:
`HH[:MM[:SS[.fff|.ffffff]]]` with zero-padded two-digit fields. -/
def isoTimeCoreOk (l : List Char) : Bool :=
  match l with
  | [h1, h2] =>
    allDigits [h1, h2] && digitsToNat [h1, h2] < 24
  | [h1, h2, c1, m1, m2] =>
    c1 == ':' && allDigits [h1, h2] && allDigits [m1, m2] &&
    digitsToNat [h1, h2] < 24 && digitsToNat [m1, m2] < 60
  | [h1, h2, c1, m1, m2, c2, s1, s2] =>
    c1 == ':' && c2 == ':' &&
    allDigits [h1, h2] && allDigits [m1, m2] && allDigits [s1, s2] &&
    digitsToNat [h1, h2] < 24 && digitsToNat [m1, m2] < 60 && digitsToNat [s1, s2] < 60
  | [h1, h2, c1, m1, m2, c2, s1, s2, dot, f1, f2, f3] =>
    c1 == ':' && c2 == ':' && dot == '.' &&
    allDigits [h1, h2] && allDigits [m1, m2] && allDigits [s1, s2] && allDigits [f1, f2, f3] &&
    digitsToNat [h1, h2] < 24 && digitsToNat [m1, m2] < 60 && digitsToNat [s1, s2] < 60
  | [h1, h2, c1, m1, m2, c2, s1, s2, dot, f1, f2, f3, f4, f5, f6] =>
    c1 == ':' && c2 == ':' && dot == '.' &&
    allDigits [h1, h2] && allDigits [m1, m2] && allDigits [s1, s2] &&
    allDigits [f1, f2, f3, f4, f5, f6] &&
    digitsToNat [h1, h2] < 24 && digitsToNat [m1, m2] < 60 && digitsToNat [s1, s2] < 60
  | _ => false

/-- A UTC-offset suffix as accepted by CPython `fromisoformat`: a sign, then
exactly `HH:MM`, `HH:MM:SS` or `HH:MM:SS.ffffff` (the three lengths the
parser admits); the components are not bounded individually — only the
total offset must stay strictly below 24 hours, as enforced by the
`timezone` constructor (so `+22:99` is a valid offset). -/
def isoTzOk (l : List Char) : Bool :=
  match l with
  | sgn :: rest =>
    (sgn == '+' || sgn == '-') &&
    (match rest with
     | [h1, h2, c1, m1, m2] =>
       c1 == ':' && allDigits [h1, h2] && allDigits [m1, m2] &&
       digitsToNat [h1, h2] * 3600 + digitsToNat [m1, m2] * 60 < 86400
     | [h1, h2, c1, m1, m2, c2, s1, s2] =>
       c1 == ':' && c2 == ':' &&
       allDigits [h1, h2] && allDigits [m1, m2] && allDigits [s1, s2] &&
       digitsToNat [h1, h2] * 3600 + digitsToNat [m1, m2] * 60 +
         digitsToNat [s1, s2] < 86400
     | [h1, h2, c1, m1, m2, c2, s1, s2, dot, f1, f2, f3, f4, f5, f6] =>
       c1 == ':' && c2 == ':' && dot == '.' &&
       allDigits [h1, h2] && allDigits [m1, m2] && allDigits [s1, s2] &&
       allDigits [f1, f2, f3, f4, f5, f6] &&
       digitsToNat [h1, h2] * 3600 + digitsToNat [m1, m2] * 60 +
         digitsToNat [s1, s2] < 86400
     | _ => false)
  | [] => false

/-- Model of `datetime.fromisoformat(s)` succeeding (Python 3.10 format:
`YYYY-MM-DD`, optionally a one-character separator, a time of day and a
UTC offset). -/
def fromisoformatOk (s : String) : Bool :=
  let l := s.data
  if l.length == 10 then isoDateOk l
  else if decide (l.length > 10) then
    isoDateOk (l.take 10) &&
    (let t := l.drop 11
     match t.findIdx? (fun c => c == '+' || c == '-') with
     | none => isoTimeCoreOk t
     | some i => isoTimeCoreOk (t.take i) && isoTzOk (t.drop i))
  else false

/-! ### The `Lead` pydantic model -/

/-- A structurally parsed request body: every required field present with its
declared type, optional fields (`consent_datetime`, `ip_address`) possibly
absent. Field-rule validation (`leadErrors`) has not yet run. -/
structure LeadRaw where
  phone : String
  email : String
  first_name : String
  last_name : String
  dob : String
  pan : String
  employment_type : String
  pincode : String
  income : Int
  consent_datetime : Option String
  ip_address : Option String
  partner_id : String
  deriving DecidableEq, Repr

/-- `phone: str = Field(..., min_length=10, max_length=10)` followed by the
`phone_is_digits` validator (the validator runs only when the length
constraints hold, as in pydantic v1). -/
def phoneError (v : String) : Option String :=
  if v.data.length < 10 then some "ensure this value has at least 10 characters"
  else if v.data.length > 10 then some "ensure this value has at most 10 characters"
  else if !pyIsdigit v then some "Phone number must be exactly 10 digits."
  else none

/-- Modelled from the spec: pydantic `EmailStr` (third-party email-validator,
not in src) — "syntactically valid email address": one `@`, nonempty local
part, nonempty domain containing a dot, no spaces, domain not starting or
ending with a dot. -/
def emailOk (s : String) : Bool :=
  match splitOnChar '@' s.data with
  | [lp, dom] =>
    !lp.isEmpty && !dom.isEmpty && dom.contains '.' &&
    !lp.contains ' ' && !dom.contains ' ' &&
    !(dom.head? == some '.') && !(dom.getLast? == some '.')
  | _ => false

def emailError (v : String) : Option String :=
  if emailOk v then none else some "value is not a valid email address"

/-- The `dob_format` validator: `datetime.strptime(v, "%Y-%m-%d")`. -/
def dobError (v : String) : Option String :=
  if strptimeYmdOk v then none else some "dob must be YYYY-MM-DD."

/-- The character shape `[A-Z]{5}[0-9]{4}[A-Z]`: five uppercase letters,
four digits, one uppercase letter, nothing more. -/
def panShape (l : List Char) : Bool :=
  match l with
  | [a, b, c, d, e, f, g, h, i, j] =>
    isUpperAZ a && isUpperAZ b && isUpperAZ c && isUpperAZ d && isUpperAZ e &&
    isAsciiDigit f && isAsciiDigit g && isAsciiDigit h && isAsciiDigit i && isUpperAZ j
  | _ => false

/-- `PAN_REGEX = re.compile(r"^[A-Z]{5}[0-9]{4}[A-Z]$")` applied with
`re.match`: the shape must cover the whole string, except that — as for any
Python `$` anchor — the match may also stop just before a single trailing
newline, so a shape match followed by one final `\n` is accepted too. -/
def panRegexMatch (s : String) : Bool :=
  panShape s.data ||
  (match s.data.getLast? with
   | some c => c == '\n' && panShape s.data.dropLast
   | none => false)

/-- The canonical PAN pattern as the spec words it: the uppercased value
matches `[A-Z]{5}[0-9]{4}[A-Z]` exactly, with no trailing newline. Stated
separately from `panRegexMatch` to compare the spec reading of the pattern
with the Python `$` semantics of the source. -/
def panCanonical (s : String) : Bool := panShape s.data

/-- The `pan_format` validator: reject unless `PAN_REGEX.match(v.upper())`;
on success the field value becomes `v.upper()`. -/
def panError (v : String) : Option String :=
  if !panRegexMatch (pyUpper v) then some "Invalid PAN format." else none

/-- The `emp_enum` validator: membership in `{"salaried", "self-employed"}`. -/
def empError (v : String) : Option String :=
  if v == "salaried" || v == "self-employed" then none
  else some "employment_type must be salaried or self-employed."

/-- `pincode: str = Field(..., min_length=6, max_length=6)`. The source has
no digit validator for pincode: only the length is constrained. -/
def pincodeError (v : String) : Option String :=
  if v.data.length < 6 then some "ensure this value has at least 6 characters"
  else if v.data.length > 6 then some "ensure this value has at most 6 characters"
  else none

/-- The `iso_dt` validator (`always=True`): parse with
`datetime.fromisoformat` only when the value is truthy, so `None` and the
empty string are accepted unchanged. -/
def consentError (v : Option String) : Option String :=
  match v with
  | none => none
  | some s =>
    if s == "" then none
    else if fromisoformatOk s then none
    else some "consent_datetime must be ISO-8601."

/-- Contribution of one field to the aggregated validation-error list. -/
def fieldEntry (name : String) (e : Option String) : List (String × String) :=
  match e with
  | none => []
  | some m => [(name, m)]

/-- All field errors of a payload, in field declaration order. As in pydantic
v1, every field is validated independently and the errors are aggregated. -/
def leadErrors (p : LeadRaw) : List (String × String) :=
  fieldEntry "phone" (phoneError p.phone) ++
  fieldEntry "email" (emailError p.email) ++
  fieldEntry "dob" (dobError p.dob) ++
  fieldEntry "pan" (panError p.pan) ++
  fieldEntry "employment_type" (empError p.employment_type) ++
  fieldEntry "pincode" (pincodeError p.pincode) ++
  fieldEntry "consent_datetime" (consentError p.consent_datetime)

/-- The rule checked for a given field name (`none` for fields with no
field-level rule). Used to state independence of the per-field checks. -/
def fieldError (f : String) (p : LeadRaw) : Option String :=
  if f = "phone" then phoneError p.phone
  else if f = "email" then emailError p.email
  else if f = "dob" then dobError p.dob
  else if f = "pan" then panError p.pan
  else if f = "employment_type" then empError p.employment_type
  else if f = "pincode" then pincodeError p.pincode
  else if f = "consent_datetime" then consentError p.consent_datetime
  else none

/-- Constructing a `Lead(BaseModel)` from a structurally parsed payload:
either every field rule holds — and the `pan_format` validator has replaced
`pan` by its uppercased form — or the aggregated error list is returned
(surfaced by the framework as an HTTP 422 response). -/
def validateLead (p : LeadRaw) : Except (List (String × String)) LeadRaw :=
  match leadErrors p with
  | [] => Except.ok { p with pan := pyUpper p.pan }
  | es => Except.error es

/-! ### The route handler -/

/-- A cell of an appended row: Python `str`, `int`, or `None`. -/
inductive Cell where
  | str : String → Cell
  | int : Int → Cell
  | null : Cell
  deriving DecidableEq, Repr

/-- `API_KEY_MAP`: partner-specific keys mapped to their partner_id. -/
def API_KEY_MAP : List (String × String) := [("YBJD1FRUY45THJ", "CM")]

/-- `HEADER_ROW`: the fixed column order for appends. -/
def HEADER_ROW : List String :=
  ["timestamp", "phone", "email", "first name", "last name",
   "dob", "pan", "employment_type", "pincode", "income",
   "consent_datetime", "ip_address", "partner_id"]

/-- Python dict membership and indexing on `API_KEY_MAP`, with the missing
header modelled as `none` (Python `None`, never a dict key). -/
def lookupKey (m : List (String × String)) (k : Option String) : Option String :=
  match k with
  | none => none
  | some k => (m.find? (fun p => p.1 = k)).map (fun p => p.2)

/-- An optional string field as it appears in `body.dict()`: the string
itself when set, Python `None` when unset. -/
def optCell : Option String → Cell
  | none => Cell.null
  | some s => Cell.str s

/-- `body.dict(by_alias=True)`: field values keyed by alias, unset optional
fields present with value `None`. -/
def leadDict (b : LeadRaw) : List (String × Cell) :=
  [("phone", Cell.str b.phone),
   ("email", Cell.str b.email),
   ("first name", Cell.str b.first_name),
   ("last name", Cell.str b.last_name),
   ("dob", Cell.str b.dob),
   ("pan", Cell.str b.pan),
   ("employment_type", Cell.str b.employment_type),
   ("pincode", Cell.str b.pincode),
   ("income", Cell.int b.income),
   ("consent_datetime", optCell b.consent_datetime),
   ("ip_address", optCell b.ip_address),
   ("partner_id", Cell.str b.partner_id)]

/-- Python `dict.get(k, default)`: the stored value when the key is present
(even when that value is `None`), the default otherwise. -/
def dictGet (d : List (String × Cell)) (k : String) (dflt : Cell) : Cell :=
  match d.find? (fun p => p.1 = k) with
  | some p => p.2
  | none => dflt

/-- `row = [datetime.utcnow().isoformat()] + [data.get(h, "") for h in
HEADER_ROW[1:]]` — `now` is the server-side UTC timestamp string computed at
append time. -/
def buildRow (now : String) (b : LeadRaw) : List Cell :=
  Cell.str now :: (HEADER_ROW.drop 1).map (fun h => dictGet (leadDict b) h (Cell.str ""))

/-- The HTTP error detail dict: `success`, `message`, and the optional
`error` object (a single field-name/message pair). -/
structure ErrDetail where
  success : Bool
  message : String
  error : Option (String × String)
  deriving DecidableEq, Repr

/-- Handler response: 200 success, an `HTTPException` with status and
detail, or the framework-level 422 validation response enumerating field errors. -/
inductive Response where
  | success : String → Response
  | httpError : Nat → ErrDetail → Response
  | validationError : List (String × String) → Response
  deriving DecidableEq, Repr

def Response.isSuccess : Response → Bool
  | Response.success _ => true
  | _ => false

/-- The 401 detail raised for an unknown or missing API key. -/
def unauthorizedDetail : ErrDetail :=
  { success := false, message := "Unauthorised Access! API Key is required!", error := none }

/-- The 400 detail raised when partner_id does not match the API key. -/
def mismatchDetail : ErrDetail :=
  { success := false, message := "Data Validation Failed!",
    error := some ("partner_id", "partner_id does not match supplied API key") }

/-- The body of `submit_lead` after body validation: API-key auth, then
partner match, then the append. Returns the response together with the list
of rows appended to the worksheet. -/
def submit_lead (now : String) (x_api_key : Option String) (body : LeadRaw) :
    Response × List (List Cell) :=
  match lookupKey API_KEY_MAP x_api_key with
  | none => (Response.httpError 401 unauthorizedDetail, [])
  | some partner =>
    if partner ≠ body.partner_id then
      (Response.httpError 400 mismatchDetail, [])
    else
      (Response.success "Lead created successfully", [buildRow now body])

/-- An incoming HTTP request: its headers (name/value pairs, in order) and
its structurally parsed JSON body. -/
structure Request where
  headers : List (String × String)
  body : LeadRaw
  deriving DecidableEq, Repr

/-- Starlette header lookup: the first header whose lowercased name equals
the (already lowercase) queried name. -/
def getHeaderValue (headers : List (String × String)) (name : String) : Option String :=
  (headers.find? (fun p => pyLower p.1 = name)).map (fun p => p.2)

/-- The `x_api_key: str | None = Header(None, convert_underscores=False)`
parameter: with underscore conversion disabled, FastAPI looks up the header
literally named `x_api_key`. -/
def extractApiKey (r : Request) : Option String :=
  getHeaderValue r.headers "x_api_key"

/-- The full request pipeline: FastAPI validates the body against the `Lead`
schema first (422 on failure, before the handler runs), then the handler
performs auth, partner match and the append. -/
def handleRequest (now : String) (r : Request) : Response × List (List Cell) :=
  match validateLead r.body with
  | Except.error es => (Response.validationError es, [])
  | Except.ok lead => submit_lead now (extractApiKey r) lead

/-! ### Sample payloads and requests -/

/-- A fully valid payload for partner `CM`, optional fields unset. -/
def sampleLead : LeadRaw :=
  { phone := "9876543210", email := "john@example.com", first_name := "John",
    last_name := "Doe", dob := "1990-01-01", pan := "abcde1234f",
    employment_type := "salaried", pincode := "110001", income := 500000,
    consent_datetime := none, ip_address := none, partner_id := "CM" }

/-- The valid payload with `consent_datetime` supplied as the empty string. -/
def consentEmptyLead : LeadRaw :=
  { sampleLead with consent_datetime := some "" }

/-- The valid payload with the pan submitted as lowercase canonical plus a
trailing newline. -/
def newlinePanLead : LeadRaw :=
  { sampleLead with pan := "abcde1234f\n" }

/-- The valid payload with a six-character pincode containing a letter. -/
def alphaPincodeLead : LeadRaw :=
  { sampleLead with pincode := "12a456" }

/-- The valid payload with a five-digit pincode. -/
def shortPincodeLead : LeadRaw :=
  { sampleLead with pincode := "12345" }

/-- A payload violating two field rules at once: bad phone and bad pan. -/
def twoBadFieldsLead : LeadRaw :=
  { sampleLead with phone := "12345", pan := "zzz" }

/-- The valid payload declaring a partner that does not match the key. -/
def wrongPartnerLead : LeadRaw :=
  { sampleLead with partner_id := "XX" }

/-- A request carrying the registered key under the `x_api_key` header. -/
def sampleReq : Request :=
  { headers := [("x_api_key", "YBJD1FRUY45THJ")], body := sampleLead }

/-- A request carrying the registered key under the header name `X-Api-Key`. -/
def hyphenHeaderReq : Request :=
  { headers := [("X-Api-Key", "YBJD1FRUY45THJ")], body := sampleLead }

/-- A valid-bodied request with no API-key header at all. -/
def noKeyReq : Request :=
  { headers := [], body := sampleLead }

/-- A request carrying the registered key under an unrelated header name. -/
def otherHeaderReq : Request :=
  { headers := [("Authorization", "YBJD1FRUY45THJ")], body := sampleLead }

/-- A request whose declared partner does not match the supplied key. -/
def wrongPartnerReq : Request :=
  { headers := [("x_api_key", "YBJD1FRUY45THJ")], body := wrongPartnerLead }

/-- A request with a valid key but a body violating two field rules. -/
def badBodyKeyReq : Request :=
  { headers := [("x_api_key", "YBJD1FRUY45THJ")], body := twoBadFieldsLead }

/-- The valid request with `consent_datetime` supplied as the empty string. -/
def consentEmptyReq : Request :=
  { headers := [("x_api_key", "YBJD1FRUY45THJ")], body := consentEmptyLead }

/-- The valid request whose pan carries a trailing newline. -/
def newlinePanReq : Request :=
  { headers := [("x_api_key", "YBJD1FRUY45THJ")], body := newlinePanLead }

/-- `sampleLead` after validation: the pan uppercased, all else unchanged. -/
def validatedSampleLead : LeadRaw :=
  { sampleLead with pan := "ABCDE1234F" }

/-! ### Helper lemmas -/

theorem validateLead_ok_iff (p l : LeadRaw) :
    validateLead p = Except.ok l ↔
      leadErrors p = [] ∧ l = { p with pan := pyUpper p.pan } := by
  unfold validateLead
  cases h : leadErrors p with
  | nil => simp [eq_comm]
  | cons e es => simp

theorem validateLead_error_of_mem (p : LeadRaw) (fm : String × String)
    (h : fm ∈ leadErrors p) : validateLead p = Except.error (leadErrors p) := by
  unfold validateLead
  cases hl : leadErrors p with
  | nil => rw [hl] at h; simp at h
  | cons e es => rfl

theorem buildRow_eq (now : String) (b : LeadRaw) :
    buildRow now b =
      [Cell.str now, Cell.str b.phone, Cell.str b.email, Cell.str b.first_name,
       Cell.str b.last_name, Cell.str b.dob, Cell.str b.pan, Cell.str b.employment_type,
       Cell.str b.pincode, Cell.int b.income, optCell b.consent_datetime,
       optCell b.ip_address, Cell.str b.partner_id] := rfl

theorem handleRequest_success_eq (now : String) (r : Request) (m : String)
    (rows : List (List Cell))
    (h : handleRequest now r = (Response.success m, rows)) :
    validateLead r.body = Except.ok { r.body with pan := pyUpper r.body.pan } ∧
      m = "Lead created successfully" ∧
      rows = [buildRow now { r.body with pan := pyUpper r.body.pan }] := by
  cases hv : validateLead r.body with
  | error es =>
    have h1 : (Response.validationError es, ([] : List (List Cell))) =
        (Response.success m, rows) := by
      unfold handleRequest at h; rw [hv] at h; exact h
    simp at h1
  | ok l =>
    have h1 : submit_lead now (extractApiKey r) l = (Response.success m, rows) := by
      unfold handleRequest at h; rw [hv] at h; exact h
    cases hk : lookupKey API_KEY_MAP (extractApiKey r) with
    | none =>
      have h2 : (Response.httpError 401 unauthorizedDetail, ([] : List (List Cell))) =
          (Response.success m, rows) := by
        unfold submit_lead at h1; rw [hk] at h1; exact h1
      simp at h2
    | some pid =>
      have h2 : (if pid ≠ l.partner_id then
            (Response.httpError 400 mismatchDetail, ([] : List (List Cell)))
          else (Response.success "Lead created successfully", [buildRow now l])) =
          (Response.success m, rows) := by
        unfold submit_lead at h1; rw [hk] at h1; exact h1
      by_cases hp : pid ≠ l.partner_id
      · rw [if_pos hp] at h2; simp at h2
      · rw [if_neg hp] at h2
        obtain ⟨-, hl⟩ := (validateLead_ok_iff r.body l).mp hv
        subst hl
        rw [Prod.mk.injEq] at h2
        obtain ⟨hresp, hrows⟩ := h2
        rw [Response.success.injEq] at hresp
        exact ⟨rfl, hresp.symm, hrows.symm⟩

theorem fieldError_mem (f : String) (p : LeadRaw) (m : String)
    (h : fieldError f p = some m) : (f, m) ∈ leadErrors p := by
  unfold fieldError at h
  split_ifs at h with h1 h2 h3 h4 h5 h6 h7
  · subst h1; simp [leadErrors, fieldEntry, h]
  · subst h2; simp [leadErrors, fieldEntry, h]
  · subst h3; simp [leadErrors, fieldEntry, h]
  · subst h4; simp [leadErrors, fieldEntry, h]
  · subst h5; simp [leadErrors, fieldEntry, h]
  · subst h6; simp [leadErrors, fieldEntry, h]
  · subst h7; simp [leadErrors, fieldEntry, h]

/-! ### Claim theorems -/

/-- C1, counterexample: the accepted request `sampleReq` leaves
`consent_datetime` unset, yet the consent column of the appended row (index 10)
holds Python `None` (`Cell.null`), not the empty string: `body.dict()` keeps
`None`-valued keys, so the `.get(h, "")` default never applies. -/
theorem C1_counterexample :
    handleRequest "2026-01-01T00:00:00" sampleReq =
      (Response.success "Lead created successfully",
       [[Cell.str "2026-01-01T00:00:00", Cell.str "9876543210", Cell.str "john@example.com",
         Cell.str "John", Cell.str "Doe", Cell.str "1990-01-01", Cell.str "ABCDE1234F",
         Cell.str "salaried", Cell.str "110001", Cell.int 500000, Cell.null, Cell.null,
         Cell.str "CM"]]) ∧
    sampleReq.body.consent_datetime = none ∧
    Cell.null ≠ Cell.str "" := by decide

/-- C1, amended: every accepted request appends exactly the row consisting of
the server-side timestamp passed at append time, followed by the lead
fields in the fixed header order, where an unset optional field appears as
Python `None` (`Cell.null`) rather than the empty string, and a set one as
its string value. -/
theorem C1_row_layout (now : String) (r : Request) (m : String) (rows : List (List Cell))
    (h : handleRequest now r = (Response.success m, rows)) :
    rows = [[Cell.str now, Cell.str r.body.phone, Cell.str r.body.email,
             Cell.str r.body.first_name, Cell.str r.body.last_name, Cell.str r.body.dob,
             Cell.str (pyUpper r.body.pan), Cell.str r.body.employment_type,
             Cell.str r.body.pincode, Cell.int r.body.income,
             optCell r.body.consent_datetime, optCell r.body.ip_address,
             Cell.str r.body.partner_id]] := by
  obtain ⟨-, -, hrows⟩ := handleRequest_success_eq now r m rows h
  rw [hrows, buildRow_eq]

/-- C1, witness: the amended row layout evaluated on the concrete accepted
request `sampleReq`. -/
theorem C1_row_layout_witness :
    handleRequest "T0" sampleReq =
      (Response.success "Lead created successfully",
       [[Cell.str "T0", Cell.str "9876543210", Cell.str "john@example.com", Cell.str "John",
         Cell.str "Doe", Cell.str "1990-01-01", Cell.str "ABCDE1234F", Cell.str "salaried",
         Cell.str "110001", Cell.int 500000, Cell.null, Cell.null, Cell.str "CM"]]) ∧
    [[Cell.str "T0", Cell.str "9876543210", Cell.str "john@example.com", Cell.str "John",
      Cell.str "Doe", Cell.str "1990-01-01", Cell.str "ABCDE1234F", Cell.str "salaried",
      Cell.str "110001", Cell.int 500000, Cell.null, Cell.null, Cell.str "CM"]] =
      [[Cell.str "T0", Cell.str sampleReq.body.phone, Cell.str sampleReq.body.email,
        Cell.str sampleReq.body.first_name, Cell.str sampleReq.body.last_name,
        Cell.str sampleReq.body.dob, Cell.str (pyUpper sampleReq.body.pan),
        Cell.str sampleReq.body.employment_type, Cell.str sampleReq.body.pincode,
        Cell.int sampleReq.body.income, optCell sampleReq.body.consent_datetime,
        optCell sampleReq.body.ip_address, Cell.str sampleReq.body.partner_id]] :=
  ⟨by decide,
   C1_row_layout "T0" sampleReq "Lead created successfully"
     [[Cell.str "T0", Cell.str "9876543210", Cell.str "john@example.com", Cell.str "John",
       Cell.str "Doe", Cell.str "1990-01-01", Cell.str "ABCDE1234F", Cell.str "salaried",
       Cell.str "110001", Cell.int 500000, Cell.null, Cell.null, Cell.str "CM"]]
     (by decide)⟩

/-- C2: a request whose body validates but whose API key (possibly missing)
is absent from the registry gets HTTP 401 with the exact unauthorised body,
and no row is appended. -/
theorem C2_unknown_key_unauthorized (now : String) (r : Request) (l : LeadRaw)
    (hbody : validateLead r.body = Except.ok l)
    (hkey : ∀ kv ∈ API_KEY_MAP, some kv.1 ≠ extractApiKey r) :
    handleRequest now r =
      (Response.httpError 401
        { success := false, message := "Unauthorised Access! API Key is required!",
          error := none }, []) := by
  have hlk : lookupKey API_KEY_MAP (extractApiKey r) = none := by
    cases hx : extractApiKey r with
    | none => rfl
    | some k =>
      have hfind : API_KEY_MAP.find? (fun p => p.1 = k) = none := by
        rw [List.find?_eq_none]
        intro kv hkv
        have hne := hkey kv hkv
        rw [hx] at hne
        simp only [ne_eq, Option.some.injEq] at hne
        simp [hne]
      have hmap : lookupKey API_KEY_MAP (some k) =
          Option.map (fun p => p.2) (API_KEY_MAP.find? (fun p => p.1 = k)) := rfl
      rw [hmap, hfind]
      rfl
  have h1 : handleRequest now r = submit_lead now (extractApiKey r) l := by
    unfold handleRequest; rw [hbody]
  have h2 : submit_lead now (extractApiKey r) l =
      (Response.httpError 401 unauthorizedDetail, []) := by
    unfold submit_lead; rw [hlk]
  rw [h1, h2]
  rfl

/-- C2, witness: the valid-bodied request with no API-key header gets the
401 response and appends nothing. -/
theorem C2_witness :
    validateLead noKeyReq.body = Except.ok validatedSampleLead ∧
    (∀ kv ∈ API_KEY_MAP, some kv.1 ≠ extractApiKey noKeyReq) ∧
    handleRequest "T0" noKeyReq =
      (Response.httpError 401
        { success := false, message := "Unauthorised Access! API Key is required!",
          error := none }, []) :=
  ⟨by decide, by decide,
   C2_unknown_key_unauthorized "T0" noKeyReq validatedSampleLead (by decide) (by decide)⟩

/-- C3: a request whose body validates and whose key is registered to a
partner different from the `partner_id` of the body gets HTTP 400 with the exact
mismatch body (error object referencing partner_id), and no row is
appended. -/
theorem C3_partner_mismatch (now : String) (r : Request) (l : LeadRaw) (k pid : String)
    (hbody : validateLead r.body = Except.ok l)
    (hx : extractApiKey r = some k)
    (hreg : (k, pid) ∈ API_KEY_MAP)
    (hne : pid ≠ r.body.partner_id) :
    handleRequest now r =
      (Response.httpError 400
        { success := false, message := "Data Validation Failed!",
          error := some ("partner_id", "partner_id does not match supplied API key") },
       []) := by
  have hk : k = "YBJD1FRUY45THJ" ∧ pid = "CM" := by
    simpa [API_KEY_MAP, Prod.ext_iff] using hreg
  obtain ⟨hk1, hk2⟩ := hk
  subst hk1
  subst hk2
  have hlk : lookupKey API_KEY_MAP (extractApiKey r) = some "CM" := by
    rw [hx]; rfl
  have hlp : l.partner_id = r.body.partner_id := by
    obtain ⟨-, hl⟩ := (validateLead_ok_iff r.body l).mp hbody
    rw [hl]
  have h1 : handleRequest now r = submit_lead now (extractApiKey r) l := by
    unfold handleRequest; rw [hbody]
  have h2 : submit_lead now (extractApiKey r) l =
      if "CM" ≠ l.partner_id then (Response.httpError 400 mismatchDetail, [])
      else (Response.success "Lead created successfully", [buildRow now l]) := by
    unfold submit_lead; rw [hlk]
  rw [h1, h2, if_pos (by rw [hlp]; exact hne)]
  rfl

/-- C3, witness: the concrete request declaring partner `XX` under the key
registered to `CM` gets the 400 mismatch response and appends nothing. -/
theorem C3_witness :
    wrongPartnerReq.body.partner_id = "XX" ∧
    extractApiKey wrongPartnerReq = some "YBJD1FRUY45THJ" ∧
    ("YBJD1FRUY45THJ", "CM") ∈ API_KEY_MAP ∧
    handleRequest "T0" wrongPartnerReq =
      (Response.httpError 400
        { success := false, message := "Data Validation Failed!",
          error := some ("partner_id", "partner_id does not match supplied API key") },
       []) :=
  ⟨by decide, by decide, by decide,
   C3_partner_mismatch "T0" wrongPartnerReq
     { wrongPartnerLead with pan := "ABCDE1234F" } "YBJD1FRUY45THJ" "CM"
     (by decide) (by decide) (by decide) (by decide)⟩

/-- C4, counterexample: the six-character pincode `12a456` contains a
non-digit yet passes validation — the source constrains only the length of
pincode, never its characters — so the payload is accepted, refuting the
all-decimal-digits half of the claim. -/
theorem C4_counterexample :
    alphaPincodeLead.pincode = "12a456" ∧
    alphaPincodeLead.pincode.data.length = 6 ∧
    allDigits alphaPincodeLead.pincode.data = false ∧
    pincodeError alphaPincodeLead.pincode = none ∧
    validateLead alphaPincodeLead =
      Except.ok { alphaPincodeLead with pan := "ABCDE1234F" } := by decide

/-- C4, amended: the pincode check passes exactly when the value is six
characters long (digits are not required); any wrong-length pincode — such
as the five-digit `12345` — produces a pincode-specific error and the
payload is rejected. -/
theorem C4_pincode_length_only (p : LeadRaw) :
    (pincodeError p.pincode = none ↔ p.pincode.data.length = 6) ∧
    (p.pincode.data.length ≠ 6 →
      ∃ msg, ("pincode", msg) ∈ leadErrors p ∧
        validateLead p = Except.error (leadErrors p)) := by
  constructor
  · unfold pincodeError
    split_ifs with h1 h2
    · exact iff_of_false (by simp) (by omega)
    · exact iff_of_false (by simp) (by omega)
    · exact iff_of_true rfl (by omega)
  · intro hne
    have hsome : ∃ msg, pincodeError p.pincode = some msg := by
      unfold pincodeError
      split_ifs with h1 h2
      · exact ⟨_, rfl⟩
      · exact ⟨_, rfl⟩
      · omega
    obtain ⟨msg, hmsg⟩ := hsome
    have hmem : ("pincode", msg) ∈ leadErrors p := by
      simp [leadErrors, fieldEntry, hmsg]
    exact ⟨msg, hmem, validateLead_error_of_mem p _ hmem⟩

/-- C4, witness: the amended claim evaluated on the concrete five-digit
pincode `12345`. -/
theorem C4_witness :
    (pincodeError shortPincodeLead.pincode = none ↔
      shortPincodeLead.pincode.data.length = 6) ∧
    (shortPincodeLead.pincode.data.length ≠ 6 ∧
      ∃ msg, ("pincode", msg) ∈ leadErrors shortPincodeLead ∧
        validateLead shortPincodeLead = Except.error (leadErrors shortPincodeLead)) :=
  ⟨(C4_pincode_length_only shortPincodeLead).1,
   by decide, (C4_pincode_length_only shortPincodeLead).2 (by decide)⟩

/-- C5, counterexample: the pan `abcde1234f` followed by a newline
uppercases to `ABCDE1234F` plus a newline, which does not match the
canonical pattern `[A-Z]{5}[0-9]{4}[A-Z]`, yet the payload is accepted —
the Python `$` anchor of `PAN_REGEX` matches before the trailing newline —
and the request stores the newline-carrying uppercased pan in the row,
refuting the rejection half of the claim. -/
theorem C5_counterexample :
    newlinePanLead.pan = "abcde1234f\n" ∧
    panCanonical (pyUpper newlinePanLead.pan) = false ∧
    panRegexMatch (pyUpper newlinePanLead.pan) = true ∧
    panError newlinePanLead.pan = none ∧
    validateLead newlinePanLead =
      Except.ok { newlinePanLead with pan := "ABCDE1234F\n" } ∧
    handleRequest "T0" newlinePanReq =
      (Response.success "Lead created successfully",
       [[Cell.str "T0", Cell.str "9876543210", Cell.str "john@example.com", Cell.str "John",
         Cell.str "Doe", Cell.str "1990-01-01", Cell.str "ABCDE1234F\n", Cell.str "salaried",
         Cell.str "110001", Cell.int 500000, Cell.null, Cell.null, Cell.str "CM"]]) := by
  decide

/-- C5, amended: the pan check accepts exactly the values whose uppercased
form matches the canonical pattern `[A-Z]{5}[0-9]{4}[A-Z]` either exactly or
followed by one trailing newline (the Python `$` semantics of
`PAN_REGEX.match`): such values — lowercase canonical submissions in
particular — pass the pan check, every accepted request stores the
uppercased form in the pan column of the row (index 6), and any other value
yields the pan error. -/
theorem C5_pan_uppercased (now : String) (r : Request) (m : String)
    (rows : List (List Cell)) :
    (panRegexMatch (pyUpper r.body.pan) = true ↔
      panCanonical (pyUpper r.body.pan) = true ∨
      ((pyUpper r.body.pan).data.getLast? = some '\n' ∧
        panCanonical ⟨(pyUpper r.body.pan).data.dropLast⟩ = true)) ∧
    (panRegexMatch (pyUpper r.body.pan) = true → panError r.body.pan = none) ∧
    (panRegexMatch (pyUpper r.body.pan) = false →
      ("pan", "Invalid PAN format.") ∈ leadErrors r.body) ∧
    (handleRequest now r = (Response.success m, rows) →
      ∃ row, rows = [row] ∧ row.get? 6 = some (Cell.str (pyUpper r.body.pan))) := by
  refine ⟨?_, ?_, ?_, ?_⟩
  · cases hl : (pyUpper r.body.pan).data.getLast? with
    | none => simp [panRegexMatch, panCanonical, hl]
    | some c => simp [panRegexMatch, panCanonical, hl]
  · intro h
    unfold panError
    rw [h]
    rfl
  · intro h
    have hp : panError r.body.pan = some "Invalid PAN format." := by
      unfold panError; rw [h]; rfl
    simp [leadErrors, fieldEntry, hp]
  · intro h
    obtain ⟨-, -, hrows⟩ := handleRequest_success_eq now r m rows h
    refine ⟨buildRow now { r.body with pan := pyUpper r.body.pan }, hrows, ?_⟩
    rw [buildRow_eq]
    rfl

/-- C5, witness: the lowercase canonical pan `abcde1234f` passes and its
accepted request stores `ABCDE1234F` in the pan column; the
newline-carrying pan `abcde1234f` plus `\n` also passes the pan check. -/
theorem C5_witness :
    panRegexMatch (pyUpper sampleReq.body.pan) = true ∧
    panError sampleReq.body.pan = none ∧
    panError newlinePanReq.body.pan = none ∧
    handleRequest "T0" sampleReq =
      (Response.success "Lead created successfully",
       [[Cell.str "T0", Cell.str "9876543210", Cell.str "john@example.com", Cell.str "John",
         Cell.str "Doe", Cell.str "1990-01-01", Cell.str "ABCDE1234F", Cell.str "salaried",
         Cell.str "110001", Cell.int 500000, Cell.null, Cell.null, Cell.str "CM"]]) ∧
    (∃ row,
      [[Cell.str "T0", Cell.str "9876543210", Cell.str "john@example.com", Cell.str "John",
        Cell.str "Doe", Cell.str "1990-01-01", Cell.str "ABCDE1234F", Cell.str "salaried",
        Cell.str "110001", Cell.int 500000, Cell.null, Cell.null, Cell.str "CM"]] = [row] ∧
      row.get? 6 = some (Cell.str (pyUpper sampleReq.body.pan))) :=
  ⟨by decide,
   (C5_pan_uppercased "T0" sampleReq "Lead created successfully" []).2.1 (by decide),
   (C5_pan_uppercased "T0" newlinePanReq "Lead created successfully" []).2.1 (by decide),
   by decide,
   (C5_pan_uppercased "T0" sampleReq "Lead created successfully"
      [[Cell.str "T0", Cell.str "9876543210", Cell.str "john@example.com", Cell.str "John",
        Cell.str "Doe", Cell.str "1990-01-01", Cell.str "ABCDE1234F", Cell.str "salaried",
        Cell.str "110001", Cell.int 500000, Cell.null, Cell.null, Cell.str "CM"]]).2.2.2
     (by decide)⟩

/-- C6, counterexample: a request carrying the registered key under the
header named `X-Api-Key` — the name the claim designates — with a valid
matching body is rejected 401 with no append: with
`convert_underscores=False` the handler reads the header literally named
`x_api_key`, so the `X-Api-Key` header is never seen. -/
theorem C6_counterexample :
    hyphenHeaderReq.headers = [("X-Api-Key", "YBJD1FRUY45THJ")] ∧
    validateLead hyphenHeaderReq.body = Except.ok validatedSampleLead ∧
    ("YBJD1FRUY45THJ", "CM") ∈ API_KEY_MAP ∧
    hyphenHeaderReq.body.partner_id = "CM" ∧
    extractApiKey hyphenHeaderReq = none ∧
    handleRequest "T0" hyphenHeaderReq =
      (Response.httpError 401 unauthorizedDetail, []) := by decide

/-- C6, amended: the API key is read from the HTTP header literally named
`x_api_key` (header names matched case-insensitively, the key value
case-sensitively); a valid-bodied request whose headers carry no name
lowercasing to `x_api_key` — including one using `X-Api-Key` — is treated
as having no key and receives the 401 response with no append. -/
theorem C6_underscore_header (now : String) (r : Request) (l : LeadRaw)
    (hbody : validateLead r.body = Except.ok l)
    (hhdr : ∀ p ∈ r.headers, pyLower p.1 ≠ "x_api_key") :
    handleRequest now r =
      (Response.httpError 401
        { success := false, message := "Unauthorised Access! API Key is required!",
          error := none }, []) := by
  have hx : extractApiKey r = none := by
    have hfind : r.headers.find? (fun p => pyLower p.1 = "x_api_key") = none := by
      rw [List.find?_eq_none]
      intro x hxm
      simpa using hhdr x hxm
    have hmap : extractApiKey r =
        Option.map (fun p => p.2) (r.headers.find? (fun p => pyLower p.1 = "x_api_key")) := rfl
    rw [hmap, hfind]
    rfl
  have hlk : lookupKey API_KEY_MAP (extractApiKey r) = none := by
    rw [hx]; rfl
  have h1 : handleRequest now r = submit_lead now (extractApiKey r) l := by
    unfold handleRequest; rw [hbody]
  have h2 : submit_lead now (extractApiKey r) l =
      (Response.httpError 401 unauthorizedDetail, []) := by
    unfold submit_lead; rw [hlk]
  rw [h1, h2]
  rfl

/-- C6, witness: the amended claim evaluated on the concrete request that
carries the registered key under the `Authorization` header only. -/
theorem C6_witness :
    validateLead otherHeaderReq.body = Except.ok validatedSampleLead ∧
    (∀ p ∈ otherHeaderReq.headers, pyLower p.1 ≠ "x_api_key") ∧
    handleRequest "T0" otherHeaderReq =
      (Response.httpError 401
        { success := false, message := "Unauthorised Access! API Key is required!",
          error := none }, []) :=
  ⟨by decide, by decide,
   C6_underscore_header "T0" otherHeaderReq validatedSampleLead (by decide) (by decide)⟩

/-- C7: a phone of exactly ten decimal digits passes the phone check, and
any other phone — wrong length or containing a non-digit — yields a
phone-specific error in the aggregated validation errors. -/
theorem C7_phone_rule (p : LeadRaw) :
    ((p.phone.data.length = 10 ∧ allDigits p.phone.data = true) →
      phoneError p.phone = none) ∧
    (¬(p.phone.data.length = 10 ∧ allDigits p.phone.data = true) →
      ∃ m, phoneError p.phone = some m ∧ ("phone", m) ∈ leadErrors p) := by
  constructor
  · rintro ⟨hlen, hdig⟩
    have hne : p.phone.data.isEmpty = false := by
      cases hd : p.phone.data with
      | nil => rw [hd] at hlen; simp at hlen
      | cons a t => rfl
    have hpy : pyIsdigit p.phone = true := by
      unfold pyIsdigit
      rw [hne, hdig]
      rfl
    unfold phoneError
    rw [if_neg (by omega), if_neg (by omega), hpy]
    rfl
  · intro h
    have hsome : ∃ m, phoneError p.phone = some m := by
      unfold phoneError
      split_ifs with h1 h2 h3
      · exact ⟨_, rfl⟩
      · exact ⟨_, rfl⟩
      · exact ⟨_, rfl⟩
      · exfalso
        apply h
        have hpy : pyIsdigit p.phone = true := by simpa using h3
        have hdig : allDigits p.phone.data = true := by
          unfold pyIsdigit at hpy
          exact (Bool.and_eq_true _ _ |>.mp hpy).2
        exact ⟨by omega, hdig⟩
    obtain ⟨m, hm⟩ := hsome
    refine ⟨m, hm, ?_⟩
    simp [leadErrors, fieldEntry, hm]

/-- C7, witness: the phone rule evaluated at the ten-digit `9876543210`
(passes) and at the five-character `12345` (phone-specific error). -/
theorem C7_witness :
    ((sampleLead.phone.data.length = 10 ∧ allDigits sampleLead.phone.data = true) ∧
      phoneError sampleLead.phone = none) ∧
    (¬(twoBadFieldsLead.phone.data.length = 10 ∧
        allDigits twoBadFieldsLead.phone.data = true) ∧
      ∃ m, phoneError twoBadFieldsLead.phone = some m ∧
        ("phone", m) ∈ leadErrors twoBadFieldsLead) :=
  ⟨⟨by decide, (C7_phone_rule sampleLead).1 (by decide)⟩,
   ⟨by decide, (C7_phone_rule twoBadFieldsLead).2 (by decide)⟩⟩

/-- C8: whenever two fields each violate their rule, the 422 validation
response lists both field/message pairs — the per-field checks run
independently and all failures are aggregated, none is dropped. -/
theorem C8_all_failing_fields (now : String) (r : Request) (f1 f2 m1 m2 : String)
    (h1 : fieldError f1 r.body = some m1) (h2 : fieldError f2 r.body = some m2) :
    ∃ es, handleRequest now r = (Response.validationError es, []) ∧
      (f1, m1) ∈ es ∧ (f2, m2) ∈ es := by
  have hm1 := fieldError_mem f1 r.body m1 h1
  have hm2 := fieldError_mem f2 r.body m2 h2
  refine ⟨leadErrors r.body, ?_, hm1, hm2⟩
  have hv := validateLead_error_of_mem r.body _ hm1
  unfold handleRequest
  rw [hv]

/-- C8, witness: the payload failing both the phone and the pan rule has
both fields listed in its validation response. -/
theorem C8_witness :
    fieldError "phone" badBodyKeyReq.body =
      some "ensure this value has at least 10 characters" ∧
    fieldError "pan" badBodyKeyReq.body = some "Invalid PAN format." ∧
    (∃ es, handleRequest "T0" badBodyKeyReq = (Response.validationError es, []) ∧
      ("phone", "ensure this value has at least 10 characters") ∈ es ∧
      ("pan", "Invalid PAN format.") ∈ es) :=
  ⟨by decide, by decide,
   C8_all_failing_fields "T0" badBodyKeyReq "phone" "pan"
     "ensure this value has at least 10 characters" "Invalid PAN format."
     (by decide) (by decide)⟩

/-- C9: the pipeline runs schema validation, then API-key auth, then the
partner match, then the append: the store receives one row exactly when the
response is the success response and zero rows on every failure path, an
invalid body yields the 422 response regardless of the key, an unknown key
the 401, a partner mismatch the 400, and a full match the success response
with its single appended row. -/
theorem C9_pipeline_order (now : String) (r : Request) :
    ((handleRequest now r).2.length =
      if Response.isSuccess (handleRequest now r).1 then 1 else 0) ∧
    (∀ es, validateLead r.body = Except.error es →
      handleRequest now r = (Response.validationError es, [])) ∧
    (∀ l, validateLead r.body = Except.ok l →
      lookupKey API_KEY_MAP (extractApiKey r) = none →
      handleRequest now r = (Response.httpError 401 unauthorizedDetail, [])) ∧
    (∀ l pid, validateLead r.body = Except.ok l →
      lookupKey API_KEY_MAP (extractApiKey r) = some pid →
      pid ≠ r.body.partner_id →
      handleRequest now r = (Response.httpError 400 mismatchDetail, [])) ∧
    (∀ l pid, validateLead r.body = Except.ok l →
      lookupKey API_KEY_MAP (extractApiKey r) = some pid →
      pid = r.body.partner_id →
      handleRequest now r =
        (Response.success "Lead created successfully", [buildRow now l])) := by
  have hOfError : ∀ es, validateLead r.body = Except.error es →
      handleRequest now r = (Response.validationError es, []) := by
    intro es hv
    unfold handleRequest
    rw [hv]
  have hOfOk : ∀ l, validateLead r.body = Except.ok l →
      handleRequest now r = submit_lead now (extractApiKey r) l := by
    intro l hv
    unfold handleRequest
    rw [hv]
  have hSubNone : lookupKey API_KEY_MAP (extractApiKey r) = none →
      ∀ l, submit_lead now (extractApiKey r) l =
        (Response.httpError 401 unauthorizedDetail, []) := by
    intro hk l
    unfold submit_lead
    rw [hk]
  have hSubSome : ∀ pid, lookupKey API_KEY_MAP (extractApiKey r) = some pid →
      ∀ l, submit_lead now (extractApiKey r) l =
        if pid ≠ l.partner_id then (Response.httpError 400 mismatchDetail, [])
        else (Response.success "Lead created successfully", [buildRow now l]) := by
    intro pid hk l
    unfold submit_lead
    rw [hk]
  refine ⟨?_, hOfError, ?_, ?_, ?_⟩
  · cases hv : validateLead r.body with
    | error es => rw [hOfError es hv]; rfl
    | ok l =>
      rw [hOfOk l hv]
      cases hk : lookupKey API_KEY_MAP (extractApiKey r) with
      | none => rw [hSubNone hk l]; rfl
      | some pid =>
        rw [hSubSome pid hk l]
        by_cases hp : pid ≠ l.partner_id
        · rw [if_pos hp]; rfl
        · rw [if_neg hp]; rfl
  · intro l hv hk
    rw [hOfOk l hv, hSubNone hk l]
  · intro l pid hv hk hne
    have hlp : l.partner_id = r.body.partner_id := by
      obtain ⟨-, hl⟩ := (validateLead_ok_iff r.body l).mp hv
      rw [hl]
    rw [hOfOk l hv, hSubSome pid hk l, if_pos (by rw [hlp]; exact hne)]
  · intro l pid hv hk heq
    have hlp : l.partner_id = r.body.partner_id := by
      obtain ⟨-, hl⟩ := (validateLead_ok_iff r.body l).mp hv
      rw [hl]
    rw [hOfOk l hv, hSubSome pid hk l, if_neg (by simp [hlp, heq])]

/-- C9, witness: a bad body with a valid key still gets the 422 validation
response with nothing appended (validation precedes auth), and the fully
valid request gets the success response with exactly its one row. -/
theorem C9_witness :
    handleRequest "T0" badBodyKeyReq =
      (Response.validationError (leadErrors twoBadFieldsLead), []) ∧
    handleRequest "T0" sampleReq =
      (Response.success "Lead created successfully", [buildRow "T0" validatedSampleLead]) :=
  ⟨(C9_pipeline_order "T0" badBodyKeyReq).2.1 (leadErrors twoBadFieldsLead) (by decide),
   (C9_pipeline_order "T0" sampleReq).2.2.2.2 validatedSampleLead "CM"
     (by decide) (by decide) (by decide)⟩

/-- C10: a `consent_datetime` supplied as the empty string passes the
consent check — the validator only parses truthy values — and an accepted
request stores the empty string as-is in the consent column of the row
(index 10). -/
theorem C10_empty_consent (now : String) (r : Request) (m : String)
    (rows : List (List Cell)) (hc : r.body.consent_datetime = some "") :
    consentError r.body.consent_datetime = none ∧
    (handleRequest now r = (Response.success m, rows) →
      ∃ row, rows = [row] ∧ row.get? 10 = some (Cell.str "")) := by
  constructor
  · rw [hc]
    rfl
  · intro h
    obtain ⟨-, -, hrows⟩ := handleRequest_success_eq now r m rows h
    refine ⟨buildRow now { r.body with pan := pyUpper r.body.pan }, hrows, ?_⟩
    rw [buildRow_eq]
    have hcc : optCell ({ r.body with pan := pyUpper r.body.pan } : LeadRaw).consent_datetime =
        Cell.str "" := by
      show optCell r.body.consent_datetime = Cell.str ""
      rw [hc]
      rfl
    rw [hcc]
    rfl

/-- C10, witness: the concrete accepted request with `consent_datetime`
equal to `""` stores `""` in the consent column. -/
theorem C10_witness :
    consentEmptyReq.body.consent_datetime = some "" ∧
    consentError consentEmptyReq.body.consent_datetime = none ∧
    handleRequest "T0" consentEmptyReq =
      (Response.success "Lead created successfully",
       [[Cell.str "T0", Cell.str "9876543210", Cell.str "john@example.com", Cell.str "John",
         Cell.str "Doe", Cell.str "1990-01-01", Cell.str "ABCDE1234F", Cell.str "salaried",
         Cell.str "110001", Cell.int 500000, Cell.str "", Cell.null, Cell.str "CM"]]) ∧
    (∃ row,
      [[Cell.str "T0", Cell.str "9876543210", Cell.str "john@example.com", Cell.str "John",
        Cell.str "Doe", Cell.str "1990-01-01", Cell.str "ABCDE1234F", Cell.str "salaried",
        Cell.str "110001", Cell.int 500000, Cell.str "", Cell.null, Cell.str "CM"]] = [row] ∧
      row.get? 10 = some (Cell.str "")) :=
  ⟨by decide,
   (C10_empty_consent "T0" consentEmptyReq "Lead created successfully" [] (by decide)).1,
   by decide,
   (C10_empty_consent "T0" consentEmptyReq "Lead created successfully"
      [[Cell.str "T0", Cell.str "9876543210", Cell.str "john@example.com", Cell.str "John",
        Cell.str "Doe", Cell.str "1990-01-01", Cell.str "ABCDE1234F", Cell.str "salaried",
        Cell.str "110001", Cell.int 500000, Cell.str "", Cell.null, Cell.str "CM"]]
      (by decide)).2 (by decide)⟩

end LeadIngest
